import Mathlib

/-
Verification development for the Laminates stock dashboard
(source file: CliffordRd.py).

Shallow embedding conventions:
* A Python numeric value is modelled as `PyNum := Option ℚ`, where
  `Option.none` stands for the float `nan` (produced by
  `pd.to_numeric(..., errors='coerce')` on bad input) and `Option.some q`
  for an ordinary finite float, modelled exactly as a rational.
* A spreadsheet cell holds a `PyVal`: a number, `nan`, or a raw string.
* A table row is a finite map from column-name strings to optional cells
  (`Option.none` = the column is absent from the table).
* Fallible Python code (KeyError from `df.at`, ZeroDivisionError,
  IndexError from `.iloc[0]`) is modelled with `Except String`.
-/

set_option autoImplicit false
set_option maxRecDepth 8000

/-- Cell values as loaded from the sheet / held in the DataFrame. -/
inductive PyVal where
  | num (q : ℚ)
  | nan
  | str (s : String)
  deriving DecidableEq

/-- Python floats: `Option.none` models `nan`, `Option.some q` a finite value. -/
abbrev PyNum := Option ℚ

/-- Addition on Python floats: `nan` absorbs. -/
def pyAdd (a b : PyNum) : PyNum :=
  match a, b with
  | Option.some x, Option.some y => Option.some (x + y)
  | _, _ => Option.none

/-- Multiplication on Python floats: `nan` absorbs. -/
def pyMul (a b : PyNum) : PyNum :=
  match a, b with
  | Option.some x, Option.some y => Option.some (x * y)
  | _, _ => Option.none

/-- Division on Python floats. A zero divisor raises `ZeroDivisionError`
(in CPython the check is on the divisor, so even `nan / 0.0` raises);
otherwise `nan` operands propagate. -/
def pyDiv (a b : PyNum) : Except String PyNum :=
  match b with
  | Option.some q =>
      if q = 0 then Except.error "ZeroDivisionError: float division by zero"
      else
        match a with
        | Option.some p => Except.ok (Option.some (p / q))
        | Option.none => Except.ok Option.none
  | Option.none => Except.ok Option.none

/-- Python comparison `x > 0`. All comparisons with `nan` are `False`. -/
def pyGt0 (a : PyNum) : Bool :=
  match a with
  | Option.some q => decide (0 < q)
  | Option.none => false

/-- Python `x or d` on a number `x` with numeric default `d`.
`0` is falsy and is replaced by the default, but `nan` is TRUTHY in
Python, so `nan or d` stays `nan` (this is what defeats the
`pd.to_numeric(...) or 0` idiom in the source). -/
def pyOr (x : PyNum) (d : ℚ) : PyNum :=
  match x with
  | Option.some q => if q = 0 then Option.some d else Option.some q
  | Option.none => Option.none

/-- Round a rational to an integer, ties to even (Python's `round`). -/
def rhe (q : ℚ) : ℤ :=
  let f : ℤ := Rat.floor q
  let r : ℚ := q - (f : ℚ)
  if r < (1 : ℚ) / 2 then f
  else if (1 : ℚ) / 2 < r then f + 1
  else if f % 2 = 0 then f else f + 1

/-- Python `round(x, 2)` on a finite value, modelled exactly on ℚ. -/
def round2 (q : ℚ) : ℚ := ((rhe (q * 100) : ℤ) : ℚ) / 100

/-- Python `round(x, 2)`: `round(nan, 2)` is `nan`. -/
def pyRound2 (a : PyNum) : PyNum :=
  match a with
  | Option.some q => Option.some (round2 q)
  | Option.none => Option.none

/-- Drop leading and trailing whitespace (Python `str.strip`). -/
def trimChars (cs : List Char) : List Char :=
  ((cs.dropWhile Char.isWhitespace).reverse.dropWhile Char.isWhitespace).reverse

/-- Parse a nonempty all-digit character list as a natural number. -/
def natOfDigits? (cs : List Char) : Option Nat :=
  if cs = [] then Option.none
  else
    cs.foldl
      (fun acc c =>
        match acc with
        | Option.none => Option.none
        | Option.some n =>
            if c.isDigit then Option.some (n * 10 + (c.toNat - 48)) else Option.none)
      (Option.some 0)

/-- Parse an unsigned Python float literal: digits with an optional single
decimal point (`"12"`, `"12.5"`, `".5"`, `"5."`). Exponent and infinity
forms do not occur in this data set and are treated as unparseable. -/
def parseUnsigned? (cs : List Char) : Option ℚ :=
  match cs.splitOn '.' with
  | [w] => (natOfDigits? w).map (fun n => (n : ℚ))
  | [w, f] =>
      if w = [] then (natOfDigits? f).map (fun n => (n : ℚ) / (10 : ℚ) ^ f.length)
      else if f = [] then (natOfDigits? w).map (fun n => (n : ℚ))
      else
        match natOfDigits? w, natOfDigits? f with
        | Option.some a, Option.some b =>
            Option.some ((a : ℚ) + (b : ℚ) / (10 : ℚ) ^ f.length)
        | _, _ => Option.none
  | _ => Option.none

/-- Python `float(s)` on a string: strips whitespace, accepts an optional
sign and `nan`; returns `Option.none` when the call would raise
`ValueError`. -/
def pyFloat? (s : String) : Option PyNum :=
  let cs := trimChars s.data
  let low := cs.map Char.toLower
  if low = ['n', 'a', 'n'] ∨ low = ['+', 'n', 'a', 'n'] ∨ low = ['-', 'n', 'a', 'n'] then
    Option.some Option.none
  else
    match cs with
    | '-' :: rest => (parseUnsigned? rest).map (fun q => Option.some (-q))
    | '+' :: rest => (parseUnsigned? rest).map (fun q => Option.some q)
    | _ => (parseUnsigned? cs).map (fun q => Option.some q)

/-- `pd.to_numeric(v, errors='coerce')`: numbers pass through, `nan` stays
`nan`, strings are parsed and an unparseable string becomes `nan`. -/
def toNumericCoerce (v : PyVal) : PyNum :=
  match v with
  | PyVal.num q => Option.some q
  | PyVal.nan => Option.none
  | PyVal.str s =>
      match pyFloat? s with
      | Option.some n => n
      | Option.none => Option.none

/-- Body of the tolerant-parse `try` block used by the Gross Summary and
the Trends loop:
`float(str(val).replace(',', '').strip()) if str(val).strip() != "" else 0`.
Result `Option.none` means the `float` call raised (caught by `except`).
For a numeric cell `str`-then-`float` round-trips to the same value, and
`str(nan)` is `"nan"` which `float` parses back to `nan`. -/
def tryCell (v : PyVal) : Option PyNum :=
  match v with
  | PyVal.num q => Option.some (Option.some q)
  | PyVal.nan => Option.some Option.none
  | PyVal.str s =>
      if trimChars s.data = [] then Option.some (Option.some 0)
      else pyFloat? (String.mk (s.data.filter (fun c => c != ',')))

/-- Value a cell contributes under the tolerant parse: parse failures
(caught by the bare `except`) contribute `0`. -/
def parsedCellValue (v : PyVal) : PyNum :=
  (tryCell v).getD (Option.some 0)

/-- The three physical sites (`site_options`, line 48). -/
inductive Site where
  | CliffordRd
  | KPark
  | HarrisDrive
  deriving DecidableEq

/-- Site label as it appears in column names. -/
def siteName (s : Site) : String :=
  match s with
  | Site.CliffordRd => "CliffordRd"
  | Site.KPark => "KPark"
  | Site.HarrisDrive => "HarrisDrive"

/-- `site_options` (line 48), in source order. -/
def siteOptions : List Site := [Site.CliffordRd, Site.KPark, Site.HarrisDrive]

/-- Metric kinds used in column names (`["Rolls", "Pallets", "SquareM"]`). -/
inductive Metric where
  | Rolls
  | Pallets
  | SquareM
  deriving DecidableEq

/-- Metric label as it appears in column names. -/
def metricName (m : Metric) : String :=
  match m with
  | Metric.Rolls => "Rolls"
  | Metric.Pallets => "Pallets"
  | Metric.SquareM => "SquareM"

/-- Calendar months. -/
inductive Month where
  | January | February | March | April | May | June
  | July | August | September | October | November | December
  deriving DecidableEq

/-- Month label as it appears in column names. -/
def monthName (m : Month) : String :=
  match m with
  | Month.January => "January"
  | Month.February => "February"
  | Month.March => "March"
  | Month.April => "April"
  | Month.May => "May"
  | Month.June => "June"
  | Month.July => "July"
  | Month.August => "August"
  | Month.September => "September"
  | Month.October => "October"
  | Month.November => "November"
  | Month.December => "December"

/-- The `months` list (line 51): the 12 calendar months in calendar order. -/
def monthsList : List Month :=
  [Month.January, Month.February, Month.March, Month.April, Month.May, Month.June,
   Month.July, Month.August, Month.September, Month.October, Month.November, Month.December]

/-- Column resolver of the Gross Summary loop (lines 156-157):
`cur_month = "Feb" if (selected_month == "February" and site == "KPark"
and metric == "SquareM") else selected_month`,
`col_name = f"{site}_{metric} {cur_month}"`. -/
def aggColName (mo : Month) (site : Site) (met : Metric) : String :=
  let cur_month :=
    if mo = Month.February ∧ site = Site.KPark ∧ met = Metric.SquareM then "Feb"
    else monthName mo
  siteName site ++ "_" ++ metricName met ++ " " ++ cur_month

/-- Column resolver of the Trends loop (lines 192-193), textually the same
rule as the aggregation one. -/
def trendColName (mo : Month) (site : Site) (met : Metric) : String :=
  let cur_m :=
    if mo = Month.February ∧ site = Site.KPark ∧ met = Metric.SquareM then "Feb"
    else monthName mo
  siteName site ++ "_" ++ metricName met ++ " " ++ cur_m

/-- Editor column `roll_col` (line 63): `f"{selected_site}_Rolls {selected_month}"`. -/
def roll_col (s : Site) (mo : Month) : String :=
  siteName s ++ "_Rolls " ++ monthName mo

/-- Editor column `pallet_col` (line 64). -/
def pallet_col (s : Site) (mo : Month) : String :=
  siteName s ++ "_Pallets " ++ monthName mo

/-- Editor column `square_col` (line 65). -/
def square_col (s : Site) (mo : Month) : String :=
  siteName s ++ "_SquareM " ++ monthName mo

/-- A table row: a map from column name to cell; `Option.none` means the
column is absent. -/
def Row : Type := String → Option PyVal

/-- Pandas `row.get(col, 0)`: an absent column yields the default `0`. -/
def rowGet (r : Row) (c : String) : PyVal :=
  (r c).getD (PyVal.num 0)

/-- Assignment `df.at[index, col] = v` restricted to one row. -/
def rowSet (r : Row) (c : String) (v : PyVal) : Row :=
  fun c2 => if c2 = c then Option.some v else r c2

/-- A computed Python number stored back into a cell (a `nan` result is
stored as `nan`). -/
def numVal (n : PyNum) : PyVal :=
  match n with
  | Option.some q => PyVal.num q
  | Option.none => PyVal.nan

/-- Line 105: `m_per_roll = pd.to_numeric(df.at[index, "Meters_per_Roll"],
errors='coerce') or 0`. Note `nan or 0` stays `nan`. -/
def m_per_roll_of (cell : PyVal) : PyNum :=
  pyOr (toNumericCoerce cell) 0

/-- Line 106: `rolls_per_pal = pd.to_numeric(df.at[index, "Rolls_on_Pallet"],
errors='coerce') or 1`. A literal `0` is falsy and becomes `1`; `nan`
is truthy and stays `nan`. -/
def rolls_per_pal_of (cell : PyVal) : PyNum :=
  pyOr (toNumericCoerce cell) 1

/-- Line 117: `calc_pallets = round(new_rolls / rolls_per_pal, 2) if
rolls_per_pal > 0 else 0`. Division is only reached under the guard. -/
def calc_pallets (new_rolls rolls_per_pal : PyNum) : Except String PyNum :=
  if pyGt0 rolls_per_pal then (pyDiv new_rolls rolls_per_pal).map pyRound2
  else Except.ok (Option.some 0)

/-- Line 124: `calc_sqm = round(new_rolls * m_per_roll, 2)`. -/
def calc_sqm (new_rolls m_per_roll : PyNum) : PyNum :=
  pyRound2 (pyMul new_rolls m_per_roll)

/-- One iteration of the save loop (lines 103-127) acting on the session
row at the same index. `rc`, `pc`, `sc` are `roll_col`, `pallet_col`,
`square_col`; `hasP`/`hasS` model the `in st.session_state.df.columns`
membership tests; `new_rolls` is `row[roll_col]` from the edited grid.
`df.at[index, c]` on an absent constant column raises `KeyError`
(caught by the page-level handler, outside this loop). The mirrored
`updates.append(...)` entries sent to the external store carry exactly
the same values as the in-memory writes and are out of scope here. -/
def saveRow (rc pc sc : String) (hasP hasS : Bool) (r : Row) (new_rolls : PyNum) :
    Except String Row :=
  match r "Meters_per_Roll" with
  | Option.none => Except.error "KeyError: Meters_per_Roll"
  | Option.some mprCell =>
    match r "Rolls_on_Pallet" with
    | Option.none => Except.error "KeyError: Rolls_on_Pallet"
    | Option.some rppCell =>
      let m_per_roll := m_per_roll_of mprCell
      let rolls_per_pal := rolls_per_pal_of rppCell
      let r1 := rowSet r rc (numVal new_rolls)
      match
        (if hasP then (calc_pallets new_rolls rolls_per_pal).map
            (fun cp => rowSet r1 pc (numVal cp))
         else Except.ok r1) with
      | Except.error e => Except.error e
      | Except.ok r2 =>
          Except.ok (if hasS then rowSet r2 sc (numVal (calc_sqm new_rolls m_per_roll)) else r2)

/-- The whole save loop: each session row is paired with the Rolls value
shown for it in the edited grid (the loop runs over every row of
`edited_df`, not only the edited ones). -/
def saveTable (rc pc sc : String) (hasP hasS : Bool)
    (rows : List Row) (newRolls : List PyNum) : Except String (List Row) :=
  (rows.zip newRolls).mapM (fun p => saveRow rc pc sc hasP hasS p.1 p.2)

/-- Body of the inner site loop of the Gross Summary (lines 155-161):
resolve the column, fetch with default `0`, and `try: total += float(...)`
with `except: pass`. -/
def aggStep (mo : Month) (met : Metric) (row : Row) (total : PyNum) (site : Site) : PyNum :=
  let col_name := aggColName mo site met
  let val := rowGet row col_name
  match tryCell val with
  | Option.some x => pyAdd total x
  | Option.none => total

/-- `total` after the site loop for one metric (lines 154-162). -/
def grossValue (row : Row) (met : Metric) (mo : Month) : PyNum :=
  siteOptions.foldl (aggStep mo met row) (Option.some 0)

/-- Sum of a list of Python floats, in order, starting from `0`: the
specification-side formulation of the gross total. -/
def pyFoldSum (l : List PyNum) : PyNum :=
  l.foldl pyAdd (Option.some 0)

/-- One entry of `summary_list` (the `mat_sum` dict, lines 144-168). -/
structure MatSum where
  material : PyVal
  code : PyVal
  metersPerRoll : PyVal
  m2PerPallet : PyNum
  grossRolls : PyNum
  grossPallets : PyNum
  areaRollBased : PyNum
  areaPalletBased : PyNum

/-- The `mat_sum` computation for one row (lines 142-168). The direct
indexes `row["Material"]` / `row["Code"]` would raise on an absent
column; the loaded sheet always carries both, and the tolerant read used
here does not affect the frame property proved about this loop. -/
def matSummaryTotal (row : Row) (mo : Month) : MatSum :=
  let m2_per_pallet := pyOr (toNumericCoerce (rowGet row "m_Square_per_pallet")) 0
  let rollsT := grossValue row Metric.Rolls mo
  let palletsT := grossValue row Metric.Pallets mo
  let sqmT := grossValue row Metric.SquareM mo
  { material := rowGet row "Material"
    code := rowGet row "Code"
    metersPerRoll := rowGet row "Meters_per_Roll"
    m2PerPallet := m2_per_pallet
    grossRolls := rollsT
    grossPallets := palletsT
    areaRollBased := sqmT
    areaPalletBased := pyRound2 (pyMul palletsT m2_per_pallet) }

/-- One iteration of the `summary_list` loop (lines 141-170), threading the
session table as explicit state: the body only reads. -/
def summaryStep (mo : Month) (acc : List Row × List MatSum) (row : Row) :
    List Row × List MatSum :=
  (acc.1, acc.2 ++ [matSummaryTotal row mo])

/-- The Gross Summary loop with the session table as explicit state. -/
def grossSummaryRun (df : List Row) (mo : Month) : List Row × List MatSum :=
  df.foldl (summaryStep mo) (df, [])

/-- `trend_values` (lines 190-197): one tolerantly-parsed value per month,
in the order of the `months` list. -/
def trend_values (site : Site) (met : Metric) (mat_data : Row) : List PyNum :=
  monthsList.map (fun mo => parsedCellValue (rowGet mat_data (trendColName mo site met)))

/-- The plotted series: month labels paired with `trend_values`
(line 199 builds the chart frame from exactly these two lists). -/
def trendSeries (site : Site) (met : Metric) (mat_data : Row) : List (String × PyNum) :=
  (monthsList.map monthName).zip (trend_values site met mat_data)

/-- Line 189: `df[df['Material'] == selected_mat].iloc[0]` — the first row
whose Material cell equals the requested name, if any. -/
def matLookup (df : List Row) (mat : String) : Option Row :=
  (df.filter (fun r => decide (r "Material" = Option.some (PyVal.str mat)))).head?

/-- Trend extraction for one material identity: `.iloc[0]` on an empty
selection raises `IndexError`, modelled as `Except.error`. -/
def trendExtract (df : List Row) (site : Site) (met : Metric) (mat : String) :
    Except String (List (String × PyNum)) :=
  match matLookup df mat with
  | Option.none => Except.error "IndexError: single positional indexer is out-of-bounds"
  | Option.some mat_data => Except.ok (trendSeries site met mat_data)

/-- One iteration of the trend loop with the session table threaded as
explicit state: the body only reads `mat_data`. -/
def trendStep (site : Site) (met : Metric) (mat_data : Row)
    (acc : List Row × List PyNum) (mo : Month) : List Row × List PyNum :=
  (acc.1, acc.2 ++ [parsedCellValue (rowGet mat_data (trendColName mo site met))])

/-- The trend computation with the session table as explicit state. -/
def trendRun (df : List Row) (site : Site) (met : Metric) (mat : String) :
    List Row × Except String (List (String × PyNum)) :=
  match matLookup df mat with
  | Option.none => (df, Except.error "IndexError: single positional indexer is out-of-bounds")
  | Option.some mat_data =>
      let z := monthsList.foldl (trendStep site met mat_data) (df, [])
      (z.1, Except.ok ((monthsList.map monthName).zip z.2))

/-- Example row used by the concrete save-loop theorems below: material
"M1" with `Meters_per_Roll = 2`, `Rolls_on_Pallet = 2`, and January
CliffordRd observations `Rolls = 10`, `Pallets = 7`, `SquareM = 20`.
The stored Pallets value `7` deliberately disagrees with the derived
`round(10 / 2, 2) = 5`. -/
def exRow : Row := fun c =>
  if c = "Material" then Option.some (PyVal.str "M1")
  else if c = "Meters_per_Roll" then Option.some (PyVal.num 2)
  else if c = "Rolls_on_Pallet" then Option.some (PyVal.num 2)
  else if c = "CliffordRd_Rolls January" then Option.some (PyVal.num 10)
  else if c = "CliffordRd_Pallets January" then Option.some (PyVal.num 7)
  else if c = "CliffordRd_SquareM January" then Option.some (PyVal.num 20)
  else Option.none

/-- The session row produced by running the save loop on `exRow` with the
grid showing the unchanged Rolls value `10`. -/
def exSavedRow : Row :=
  (saveRow (roll_col Site.CliffordRd Month.January) (pallet_col Site.CliffordRd Month.January)
      (square_col Site.CliffordRd Month.January) true true exRow (Option.some 10)).toOption.getD exRow

/-- The explicit shape of the row written back by one save-loop
iteration: Rolls first, then (conditionally) Pallets and SquareM, with
`cp` the already-computed Pallets value and `mpr` the `Meters_per_Roll`
cell read at the start of the iteration. -/
def saveRowResult (rc pc sc : String) (hasP hasS : Bool) (r : Row) (nr : PyNum)
    (cp : PyNum) (mpr : PyVal) : Row :=
  let r1 := rowSet r rc (numVal nr)
  let r2 := if hasP then rowSet r1 pc (numVal cp) else r1
  if hasS then rowSet r2 sc (numVal (calc_sqm nr (m_per_roll_of mpr))) else r2

/-- A trend cell that is absent from the table or holds an empty /
whitespace-only string (the two "no data" shapes the claimset talks
about). -/
def emptyOrMissing : Option PyVal → Prop
  | Option.none => True
  | Option.some (PyVal.str s) => trimChars s.data = []
  | Option.some _ => False

section Lemmas

/-- Adding a parsed `0` leaves the running total unchanged, so the
`except: pass` branch and "contribute 0" agree. -/
theorem pyAdd_zero (t : PyNum) : pyAdd t (Option.some 0) = t := by
  cases t <;> simp [pyAdd]

/-- One iteration of the site loop adds exactly the tolerantly-parsed
value of the resolved cell. -/
theorem aggStep_eq (mo : Month) (met : Metric) (row : Row) (t : PyNum) (s : Site) :
    aggStep mo met row t s = pyAdd t (parsedCellValue (rowGet row (aggColName mo s met))) := by
  unfold aggStep parsedCellValue
  cases h : tryCell (rowGet row (aggColName mo s met)) with
  | none => simp [h, pyAdd_zero]
  | some x => simp [h]

theorem foldl_aggStep_eq (mo : Month) (met : Metric) (row : Row) :
    ∀ (l : List Site) (t : PyNum),
      l.foldl (aggStep mo met row) t
        = (l.map (fun s => parsedCellValue (rowGet row (aggColName mo s met)))).foldl pyAdd t := by
  intro l
  induction l with
  | nil => intro t; rfl
  | cons a l ih => intro t; rw [List.foldl_cons, List.map_cons, List.foldl_cons, aggStep_eq, ih]

end Lemmas

/-- C1: for every material row and every metric and period, the gross
total computed by the summary loop equals the sum over the fixed site
set [CliffordRd, KPark, HarrisDrive] of the tolerantly-parsed resolved
cell values; moreover the parse strips whitespace and thousands-separator
commas (`"1,250"` contributes `1250`), an empty or whitespace-only string
contributes `0`, an unparseable string such as `"abc"` contributes `0`
(the exception is swallowed, the loop continues), and a row none of whose
resolved columns exists yields a gross total of exactly `0`. -/
theorem gross_total_eq_tolerant_site_sum :
    (∀ (row : Row) (met : Metric) (mo : Month),
        grossValue row met mo
          = pyFoldSum (siteOptions.map
              (fun s => parsedCellValue (rowGet row (aggColName mo s met)))))
    ∧ parsedCellValue (PyVal.str "1,250") = Option.some 1250
    ∧ parsedCellValue (PyVal.str "   ") = Option.some 0
    ∧ parsedCellValue (PyVal.str "") = Option.some 0
    ∧ parsedCellValue (PyVal.str "abc") = Option.some 0
    ∧ (∀ (met : Metric) (mo : Month),
        grossValue (fun _ => Option.none) met mo = Option.some 0) := by
  refine ⟨?_, ?_, ?_, ?_, ?_, ?_⟩
  · intro row met mo
    rw [grossValue, pyFoldSum, foldl_aggStep_eq]
  · with_unfolding_all decide
  · with_unfolding_all decide
  · with_unfolding_all decide
  · with_unfolding_all decide
  · intro met mo
    cases met <;> cases mo <;> with_unfolding_all rfl

/-- C4: both the aggregation resolver and the trend resolver map the
single triple (KPark, SquareM, February) to the column name built with
the period label "Feb"; every other (site, metric, period) triple gets
the regular name `{site}_{metric} {period}`. -/
theorem resolver_feb_exception :
    aggColName Month.February Site.KPark Metric.SquareM = "KPark_SquareM Feb"
    ∧ trendColName Month.February Site.KPark Metric.SquareM = "KPark_SquareM Feb"
    ∧ ∀ (s : Site) (met : Metric) (mo : Month),
        (s = Site.KPark ∧ met = Metric.SquareM ∧ mo = Month.February)
        ∨ (aggColName mo s met = siteName s ++ "_" ++ metricName met ++ " " ++ monthName mo
           ∧ trendColName mo s met = siteName s ++ "_" ++ metricName met ++ " " ++ monthName mo) := by
  refine ⟨rfl, rfl, ?_⟩
  intro s met mo
  cases s <;> cases met <;> cases mo <;>
    first
      | exact Or.inl ⟨rfl, rfl, rfl⟩
      | exact Or.inr ⟨rfl, rfl⟩

/-- C6 counterexample: the claim that some legacy site's SquareArea
columns omit the site prefix (taking the form "SquareArea {period}" /
"SquareM {period}") is false for this code: no site resolves any period
to a prefix-free column name. -/
theorem no_site_prefix_omission_cex :
    ¬ ∃ s : Site, ∀ mo : Month,
        aggColName mo s Metric.SquareM = "SquareM " ++ monthName mo
        ∨ aggColName mo s Metric.SquareM = "SquareArea " ++ monthName mo := by
  intro h
  rcases h with ⟨s, hs⟩
  cases s
  · rcases hs Month.January with h1 | h1 <;> exact absurd h1 (by decide)
  · rcases hs Month.January with h1 | h1 <;> exact absurd h1 (by decide)
  · rcases hs Month.January with h1 | h1 <;> exact absurd h1 (by decide)

/-- C6 amended: in this variant every SquareArea (SquareM) column name,
both in the editor column construction and in the resolver used for
aggregation, carries the `{site}_` prefix; the only irregularity is the
KPark/February "Feb" label, and no triple ever resolves to the
prefix-free form "SquareM {period}". -/
theorem square_cols_always_site_prefixed :
    ∀ (s : Site) (mo : Month),
      square_col s mo = siteName s ++ "_SquareM " ++ monthName mo
      ∧ aggColName mo s Metric.SquareM
          = siteName s ++ "_SquareM "
            ++ (if s = Site.KPark ∧ mo = Month.February then "Feb" else monthName mo)
      ∧ aggColName mo s Metric.SquareM ≠ "SquareM " ++ monthName mo := by
  intro s mo
  cases s <;> cases mo <;> exact ⟨rfl, rfl, by decide⟩

/-- C2 counterexample: with the per-material constant `Rolls_on_Pallet`
equal to `0` and an edited Rolls value of `10`, the code derives
`Pallets = 10`, not `0`: the `or 1` coercion turns the falsy `0` into
`1`, so `round(10 / 1, 2) = 10`. -/
theorem pallets_zero_divisor_cex :
    calc_pallets (Option.some 10) (rolls_per_pal_of (PyVal.num 0)) = Except.ok (Option.some 10)
    ∧ Option.some (10 : ℚ) ≠ Option.some (0 : ℚ) := by
  constructor
  · with_unfolding_all rfl
  · decide

/-- C2 amended: the Pallets derivation is total — it never raises a
division error for any value of the `Rolls_on_Pallet` cell (division is
attempted only under the `rolls_per_pal > 0` guard, and the coercion
never yields a value that is both positive and zero); a missing (blank)
or non-numeric constant coerces to `nan`, fails the guard and yields
`Pallets = 0`; but a constant equal to `0` is replaced by `1` by the
`or 1` default, so the derived value is `round(Rolls / 1, 2) =
round(Rolls, 2)` rather than `0`. -/
theorem pallets_derivation_total_amended :
    ∀ (nr : PyNum) (cell : PyVal),
      (calc_pallets nr (rolls_per_pal_of cell)).isOk = true
      ∧ calc_pallets nr (rolls_per_pal_of PyVal.nan) = Except.ok (Option.some 0)
      ∧ calc_pallets nr (rolls_per_pal_of (PyVal.str "")) = Except.ok (Option.some 0)
      ∧ calc_pallets nr (rolls_per_pal_of (PyVal.str "abc")) = Except.ok (Option.some 0)
      ∧ calc_pallets nr (rolls_per_pal_of (PyVal.num 0)) = Except.ok (pyRound2 nr) := by
  intro nr cell
  refine ⟨?_, rfl, rfl, rfl, ?_⟩
  · cases hx : rolls_per_pal_of cell with
    | none => simp [calc_pallets, pyGt0, Except.isOk, Except.toBool]
    | some q =>
        by_cases hq : 0 < q
        · have hne : q ≠ 0 := ne_of_gt hq
          cases nr <;>
            simp [calc_pallets, pyGt0, hq, pyDiv, hne, Except.map, Except.isOk, Except.toBool]
        · simp [calc_pallets, pyGt0, hq, Except.isOk, Except.toBool]
  · have hone : rolls_per_pal_of (PyVal.num 0) = Option.some 1 := rfl
    rw [hone]
    cases nr with
    | none => rfl
    | some p =>
        simp [calc_pallets, pyGt0, pyDiv, pyRound2, Except.map, one_ne_zero]

/-- C3: evaluation of the Derivation Engine at the failing input
(Rolls = 10, `Meters_per_Roll` = "abc", `Rolls_on_Pallet` = "abc").
The claim (and the spec) say a non-numeric constant is treated as `0`
(`1` for the divisor), which would give `SquareArea = 0` and
`Pallets = 10`; the code instead keeps the coerced `nan` (`nan` is
truthy, so `or 0` / `or 1` never fire) and stores `SquareArea = nan`,
`Pallets = 0`. -/
theorem constants_nan_propagation_eval :
    m_per_roll_of (PyVal.str "abc") = Option.none
    ∧ m_per_roll_of (PyVal.str "") = Option.none
    ∧ calc_sqm (Option.some 10) (m_per_roll_of (PyVal.str "abc")) = Option.none
    ∧ calc_pallets (Option.some 10) (rolls_per_pal_of (PyVal.str "abc"))
        = Except.ok (Option.some 0)
    ∧ calc_sqm (Option.some 10) (Option.some 0) = Option.some 0
    ∧ calc_pallets (Option.some 10) (Option.some 1) = Except.ok (Option.some 10) := by
  refine ⟨rfl, rfl, rfl, rfl, ?_, ?_⟩
  · with_unfolding_all rfl
  · with_unfolding_all rfl

/-- C5 counterexample: the save loop runs over every row of the edited
grid, not only the edited ones. Here the grid shows the unchanged Rolls
value `10` for `exRow` (the user edited nothing), yet saving rewrites the
row's Pallets observation cell from the stored `7` to the re-derived
`round(10 / 2, 2) = 5` — an unedited row is not left unchanged. -/
theorem save_overwrites_unedited_row_cex :
    exRow "CliffordRd_Rolls January" = Option.some (PyVal.num 10)
    ∧ exRow "CliffordRd_Pallets January" = Option.some (PyVal.num 7)
    ∧ saveRow (roll_col Site.CliffordRd Month.January) (pallet_col Site.CliffordRd Month.January)
        (square_col Site.CliffordRd Month.January) true true exRow (Option.some 10)
        = Except.ok exSavedRow
    ∧ exSavedRow "CliffordRd_Pallets January" = Option.some (PyVal.num 5) := by
  refine ⟨rfl, rfl, ?_, ?_⟩
  · with_unfolding_all rfl
  · with_unfolding_all rfl

/-- C5 amended: on save, every row of the grid is processed and its
Rolls, Pallets and SquareM observation cells for the selected site and
month are rewritten with freshly derived values (so an unedited row
changes whenever its stored cells disagree with the derivation); every
OTHER column of every row is left unchanged — the save has no effect
outside the three written cells. -/
theorem saveRow_touches_only_three_columns (rc pc sc : String) (hasP hasS : Bool)
    (r : Row) (nr : PyNum) (r2 : Row)
    (h : saveRow rc pc sc hasP hasS r nr = Except.ok r2)
    (c : String) (h1 : c ≠ rc) (h2 : c ≠ pc) (h3 : c ≠ sc) :
    r2 c = r c := by
  cases hA : r "Meters_per_Roll" with
  | none => rw [saveRow, hA] at h; exact absurd h (by simp)
  | some mpr =>
    cases hB : r "Rolls_on_Pallet" with
    | none => rw [saveRow, hA, hB] at h; exact absurd h (by simp)
    | some rpp =>
      rw [saveRow, hA, hB] at h
      cases hasP with
      | false =>
          simp only [if_neg Bool.false_ne_true, Bool.false_eq_true, if_false] at h
          cases hasS with
          | false =>
              simp only [Bool.false_eq_true, if_false, Except.ok.injEq] at h
              subst h
              simp [rowSet, h1]
          | true =>
              simp only [if_true, Except.ok.injEq] at h
              subst h
              simp [rowSet, h1, h3]
      | true =>
          simp only [eq_self_iff_true, if_true] at h
          cases hC : calc_pallets nr (rolls_per_pal_of rpp) with
          | error e =>
              rw [hC] at h
              exact absurd h (by simp [Except.map])
          | ok cp =>
              rw [hC] at h
              simp only [Except.map, Except.ok.injEq] at h
              cases hasS with
              | false =>
                  simp only [Bool.false_eq_true, if_false] at h
                  subst h
                  simp [rowSet, h1, h2]
              | true =>
                  simp only [if_true] at h
                  subst h
                  simp [rowSet, h1, h2, h3]

/-- Witness for the amended C5 theorem: applied to the concrete example
row, the column "Laminate" (not one of the three written cells) is
unchanged by the save. -/
theorem saveRow_touches_only_three_columns_witness :
    exSavedRow "Laminate" = exRow "Laminate" :=
  saveRow_touches_only_three_columns
    (roll_col Site.CliffordRd Month.January) (pallet_col Site.CliffordRd Month.January)
    (square_col Site.CliffordRd Month.January) true true exRow (Option.some 10) exSavedRow
    (by with_unfolding_all rfl) "Laminate" (by decide) (by decide) (by decide)

/-- Whenever a save-loop iteration succeeds, its output row has the
explicit three-cell shape `saveRowResult` (with `cp` the computed Pallets
value when the Pallets column is present, arbitrary otherwise). -/
theorem saveRow_ok_shape (rc pc sc : String) (hasP hasS : Bool) (r r2 : Row) (nr : PyNum)
    (h : saveRow rc pc sc hasP hasS r nr = Except.ok r2) :
    ∃ (mpr rpp : PyVal) (cp : PyNum),
      r "Meters_per_Roll" = Option.some mpr
      ∧ r "Rolls_on_Pallet" = Option.some rpp
      ∧ (hasP = true → calc_pallets nr (rolls_per_pal_of rpp) = Except.ok cp)
      ∧ r2 = saveRowResult rc pc sc hasP hasS r nr cp mpr := by
  cases hA : r "Meters_per_Roll" with
  | none => rw [saveRow, hA] at h; exact absurd h (by simp)
  | some mpr =>
    cases hB : r "Rolls_on_Pallet" with
    | none => rw [saveRow, hA, hB] at h; exact absurd h (by simp)
    | some rpp =>
      rw [saveRow, hA, hB] at h
      cases hasP with
      | false =>
          simp only [Bool.false_eq_true, if_false, Except.ok.injEq] at h
          refine ⟨mpr, rpp, Option.some 0, rfl, rfl, by intro hx; exact absurd hx (by simp), ?_⟩
          rw [← h]
          cases hasS <;> simp [saveRowResult]
      | true =>
          simp only [eq_self_iff_true, if_true] at h
          cases hC : calc_pallets nr (rolls_per_pal_of rpp) with
          | error e =>
              rw [hC] at h
              exact absurd h (by simp [Except.map])
          | ok cp =>
              rw [hC] at h
              simp only [Except.map, Except.ok.injEq] at h
              refine ⟨mpr, rpp, cp, rfl, rfl, fun _ => hC, ?_⟩
              rw [← h]
              cases hasS <;> simp [saveRowResult]

/-- Columns other than the three written ones are untouched by
`saveRowResult`. -/
theorem saveRowResult_frame (rc pc sc : String) (hasP hasS : Bool) (r : Row) (nr : PyNum)
    (cp : PyNum) (mpr : PyVal) (c : String)
    (h1 : c ≠ rc) (h2 : c ≠ pc) (h3 : c ≠ sc) :
    saveRowResult rc pc sc hasP hasS r nr cp mpr c = r c := by
  cases hasP <;> cases hasS <;> simp [saveRowResult, rowSet, h1, h2, h3]

/-- Re-applying the same three-cell write with the same values is a
no-op: the second application changes nothing. -/
theorem saveRowResult_idem (rc pc sc : String) (hasP hasS : Bool) (r : Row) (nr : PyNum)
    (cp : PyNum) (mpr : PyVal) :
    saveRowResult rc pc sc hasP hasS (saveRowResult rc pc sc hasP hasS r nr cp mpr) nr cp mpr
      = saveRowResult rc pc sc hasP hasS r nr cp mpr := by
  funext k
  by_cases hk3 : k = sc <;> by_cases hk2 : k = pc <;> by_cases hk1 : k = rc <;>
    cases hasP <;> cases hasS <;>
      simp [saveRowResult, rowSet, hk1, hk2, hk3] <;>
        first
          | rfl
          | (intros; split_ifs <;> simp_all)

/-- The three editor column names never collide with the two constant
columns, for any site and month. -/
theorem editor_cols_ne_constants (s : Site) (mo : Month) :
    roll_col s mo ≠ "Meters_per_Roll" ∧ pallet_col s mo ≠ "Meters_per_Roll"
    ∧ square_col s mo ≠ "Meters_per_Roll" ∧ roll_col s mo ≠ "Rolls_on_Pallet"
    ∧ pallet_col s mo ≠ "Rolls_on_Pallet" ∧ square_col s mo ≠ "Rolls_on_Pallet" := by
  cases s <;> cases mo <;>
    exact ⟨by decide, by decide, by decide, by decide, by decide, by decide⟩

/-- C8: the derivation performed by the save loop is idempotent. If one
iteration of the save loop (for any site/month columns and any column
presence flags) maps the session row `r` to `r2`, then running the same
iteration again on `r2` with the same edited Rolls value succeeds and
returns `r2` unchanged: the derived Pallets and SquareArea cells are a
pure function of the Rolls input and the per-material constants, which
the save never overwrites. -/
theorem save_derivation_idempotent (s : Site) (mo : Month) (hasP hasS : Bool)
    (r r2 : Row) (nr : PyNum)
    (h : saveRow (roll_col s mo) (pallet_col s mo) (square_col s mo) hasP hasS r nr
          = Except.ok r2) :
    saveRow (roll_col s mo) (pallet_col s mo) (square_col s mo) hasP hasS r2 nr
      = Except.ok r2 := by
  obtain ⟨hm1, hm2, hm3, hp1, hp2, hp3⟩ := editor_cols_ne_constants s mo
  obtain ⟨mpr, rpp, cp, hA, hB, hC, hR⟩ :=
    saveRow_ok_shape (roll_col s mo) (pallet_col s mo) (square_col s mo) hasP hasS r r2 nr h
  have e1 : r2 "Meters_per_Roll" = Option.some mpr := by
    rw [hR, saveRowResult_frame _ _ _ _ _ _ _ _ _ _ (Ne.symm hm1) (Ne.symm hm2) (Ne.symm hm3)]
    exact hA
  have e2 : r2 "Rolls_on_Pallet" = Option.some rpp := by
    rw [hR, saveRowResult_frame _ _ _ _ _ _ _ _ _ _ (Ne.symm hp1) (Ne.symm hp2) (Ne.symm hp3)]
    exact hB
  rw [saveRow, e1, e2]
  cases hasP with
  | false =>
      simp only [Bool.false_eq_true, if_false, Except.ok.injEq]
      rw [hR]
      have := saveRowResult_idem (roll_col s mo) (pallet_col s mo) (square_col s mo)
        false hasS r nr cp mpr
      cases hasS <;> simpa [saveRowResult] using this
  | true =>
      simp only [eq_self_iff_true, if_true]
      rw [hC rfl]
      simp only [Except.map, Except.ok.injEq]
      rw [hR]
      have := saveRowResult_idem (roll_col s mo) (pallet_col s mo) (square_col s mo)
        true hasS r nr cp mpr
      cases hasS <;> simpa [saveRowResult] using this

/-- Witness for C8: on the concrete example row, a second application of
the save iteration returns the already-saved row unchanged. -/
theorem save_derivation_idempotent_witness :
    saveRow (roll_col Site.CliffordRd Month.January) (pallet_col Site.CliffordRd Month.January)
      (square_col Site.CliffordRd Month.January) true true exSavedRow (Option.some 10)
      = Except.ok exSavedRow :=
  save_derivation_idempotent Site.CliffordRd Month.January true true exRow exSavedRow
    (Option.some 10) (by with_unfolding_all rfl)

/-- An absent or empty cell parses tolerantly to `0`. -/
theorem parsed_of_empty (v : Option PyVal) (hv : emptyOrMissing v) :
    parsedCellValue (v.getD (PyVal.num 0)) = Option.some 0 := by
  match v with
  | Option.none => rfl
  | Option.some (PyVal.str s) =>
      simp only [emptyOrMissing] at hv
      simp [parsedCellValue, tryCell, hv]
  | Option.some (PyVal.num q) => exact absurd hv (by simp [emptyOrMissing])
  | Option.some PyVal.nan => exact absurd hv (by simp [emptyOrMissing])

/-- C7: for every material row, site and metric, the trend series has
exactly 12 entries whose period labels are the calendar months January
through December in calendar order (the `months` list is not re-sorted);
and when every resolved cell of the row is absent or empty, all 12
values are `0`. -/
theorem trend_twelve_calendar_values :
    ∀ (site : Site) (met : Metric) (mat_data : Row),
      (trendSeries site met mat_data).length = 12
      ∧ (trendSeries site met mat_data).map Prod.fst = monthsList.map monthName
      ∧ ((∀ mo : Month, emptyOrMissing (mat_data (trendColName mo site met))) →
          (trendSeries site met mat_data).map Prod.snd
            = List.replicate 12 (Option.some (0 : ℚ))) := by
  intro site met mat_data
  refine ⟨rfl, rfl, ?_⟩
  intro h
  have e : ∀ mo : Month,
      parsedCellValue (rowGet mat_data (trendColName mo site met)) = Option.some 0 :=
    fun mo => parsed_of_empty _ (h mo)
  simp [trendSeries, trend_values, monthsList, List.replicate, e]

/-- Witness for C7: the row with no columns at all yields twelve zero
values. -/
theorem trend_twelve_calendar_values_witness :
    (trendSeries Site.CliffordRd Metric.Rolls (fun _ => Option.none)).map Prod.snd
      = List.replicate 12 (Option.some (0 : ℚ)) :=
  (trend_twelve_calendar_values Site.CliffordRd Metric.Rolls (fun _ => Option.none)).2.2
    (fun _ => trivial)

/-- C9: when no row of the table has the requested Material identity,
trend extraction surfaces a lookup failure (`IndexError` from
`.iloc[0]` on the empty selection) instead of silently returning zeros;
by contrast, a present material whose trend columns are all missing
yields an ok result of twelve zeros without any error. -/
theorem trend_missing_material_error :
    ∀ (df : List Row) (site : Site) (met : Metric) (mat : String),
      (∀ r ∈ df, r "Material" ≠ Option.some (PyVal.str mat)) →
      (trendExtract df site met mat
          = Except.error "IndexError: single positional indexer is out-of-bounds"
        ∧ ∀ r0 : Row, r0 "Material" = Option.some (PyVal.str mat) →
            (∀ mo : Month, r0 (trendColName mo site met) = Option.none) →
            trendExtract (r0 :: df) site met mat
              = Except.ok ((monthsList.map monthName).zip
                  (List.replicate 12 (Option.some (0 : ℚ))))) := by
  intro df site met mat h
  constructor
  · have hnil : df.filter (fun r => decide (r "Material" = Option.some (PyVal.str mat))) = [] := by
      rw [List.filter_eq_nil_iff]
      intro r hr
      simpa using h r hr
    rw [trendExtract, matLookup, hnil]
    rfl
  · intro r0 h1 h2
    have hL : matLookup (r0 :: df) mat = Option.some r0 := by
      rw [matLookup]
      simp [List.filter_cons, h1]
    rw [trendExtract, hL]
    have e : ∀ mo : Month,
        parsedCellValue (rowGet r0 (trendColName mo site met)) = Option.some 0 := by
      intro mo
      rw [rowGet, h2 mo]
      rfl
    simp [trendSeries, trend_values, monthsList, List.replicate, e]

/-- Witness for C9: on the empty table every material is missing, and the
extraction reports the lookup failure. -/
theorem trend_missing_material_error_witness :
    trendExtract [] Site.CliffordRd Metric.Rolls "M1"
      = Except.error "IndexError: single positional indexer is out-of-bounds" :=
  (trend_missing_material_error [] Site.CliffordRd Metric.Rolls "M1"
    (by intro r hr; exact absurd hr (List.not_mem_nil r))).1

/-- Folding a step function that never changes the first (state)
component leaves it untouched. -/
theorem foldl_fst_eq {α γ δ : Type} (f : γ × δ → α → γ × δ)
    (hf : ∀ acc x, (f acc x).1 = acc.1) :
    ∀ (l : List α) (acc : γ × δ), (l.foldl f acc).1 = acc.1 := by
  intro l
  induction l with
  | nil => intro acc; rfl
  | cons a t ih => intro acc; rw [List.foldl_cons, ih, hf]

/-- C10: computing the Gross Summary and computing a trend are read-only:
with the session table threaded as explicit state through both loops,
the state after either loop equals the table that went in, for every
table, period, site, metric and material (only the save loop writes). -/
theorem summary_and_trend_read_only :
    ∀ (df : List Row) (mo : Month) (site : Site) (met : Metric) (mat : String),
      (grossSummaryRun df mo).1 = df ∧ (trendRun df site met mat).1 = df := by
  intro df mo site met mat
  constructor
  · exact foldl_fst_eq (summaryStep mo) (fun acc row => rfl) df (df, [])
  · rw [trendRun]
    cases hL : matLookup df mat with
    | none => rfl
    | some md =>
        exact foldl_fst_eq (trendStep site met md) (fun acc x => rfl) monthsList (df, [])
